import Mathlib

/-!
Verification of the AgiMateIo/desktop coordination core against its
natural-language specification.

The Python sources embedded here (shallowly) are:
  src/core/event_bus.py      (Topics, EventBus)
  src/core/plugin_manager.py (PluginManager: discovery, routing, capabilities)
  src/core/plugin_base.py    (PluginBase.load_config, enabled)
  src/core/retry.py          (RetryConfig, _is_transient_error, retry_async)
  src/core/server_client.py  (ServerClient: send_trigger, _get_ws_url,
                              _dispatch_tool, _schedule_reconnect)
  src/core/api_endpoints.py  (endpoint constants)

Python dicts are modelled as association lists with insertion-order and
replace-in-place update semantics (Python 3.7+ dict).  A raised Python
exception is modelled with `Except`: a function that may raise returns
`Except PyExc _`.  Wall-clock timestamps, logging and asyncio sleeping are
not observable in any claim and are elided.
-/

/-- Python `dict` lookup `m.get(k)` on an association list (keys unique,
insertion ordered). -/
def alist_get {α : Type} (m : List (String × α)) (k : String) : Option α :=
  match m with
  | [] => none
  | (k0, v0) :: rest => if k0 = k then some v0 else alist_get rest k

/-- Python `dict` assignment `m[k] = v`: replaces in place if the key is
present, otherwise appends at the end (insertion order preserved). -/
def dict_set {α : Type} (m : List (String × α)) (k : String) (v : α) :
    List (String × α) :=
  match m with
  | [] => [(k, v)]
  | (k0, v0) :: rest =>
    if k0 = k then (k0, v) :: rest else (k0, v0) :: dict_set rest k v

/-!
## EventBus (src/core/event_bus.py)

A synchronous handler is modelled as a function that either returns
normally (`.ok`) or raises (`.error msg`); its `hid` is an identity used
to observe which handlers were invoked and in which order.
-/

/-- A synchronous subscriber registered on the bus.  `run` models the
Python callable: it may raise (`.error`). -/
structure SyncHandler (α : Type) where
  hid : Nat
  run : α → Except String Unit

/-- EventBus state: `_sync_handlers : dict[str, list[Callable]]`.
(The async handler pool is not involved in any claim.) -/
structure EventBus (α : Type) where
  sync_handlers : List (String × List (SyncHandler α))

/-- `EventBus.subscribe`: create the topic entry if absent, then append
the handler (registration order preserved). -/
def EventBus.subscribe {α : Type} (bus : EventBus α) (topic : String)
    (h : SyncHandler α) : EventBus α :=
  match alist_get bus.sync_handlers topic with
  | none => ⟨dict_set bus.sync_handlers topic [h]⟩
  | some hs => ⟨dict_set bus.sync_handlers topic (hs ++ [h])⟩

/-- The handler list registered for a topic (empty when the topic has no
entry). -/
def EventBus.subscribersOf {α : Type} (bus : EventBus α) (topic : String) :
    List (SyncHandler α) :=
  (alist_get bus.sync_handlers topic).getD []

/-- The `for handler in self._sync_handlers[topic]` loop of
`EventBus.publish`: each handler is called inside `try/except`, so a
raising handler is logged and the loop continues.  The result records,
in order, each invoked handler's id and whether it returned normally. -/
def runSyncHandlers {α : Type} (hs : List (SyncHandler α)) (data : α) :
    List (Nat × Bool) :=
  match hs with
  | [] => []
  | h :: rest =>
    match h.run data with
    | .ok _ => (h.hid, true) :: runSyncHandlers rest data
    | .error _ => (h.hid, false) :: runSyncHandlers rest data

/-- `EventBus.publish(topic, data)`: `if topic not in self._sync_handlers:
return`, else run every registered handler under its own try/except.
The return value is the invocation trace. -/
def EventBus.publish {α : Type} (bus : EventBus α) (topic : String) (data : α) :
    List (Nat × Bool) :=
  match alist_get bus.sync_handlers topic with
  | none => []
  | some hs => runSyncHandlers hs data

theorem runSyncHandlers_fst {α : Type} (hs : List (SyncHandler α)) (data : α) :
    (runSyncHandlers hs data).map Prod.fst = hs.map SyncHandler.hid := by
  induction hs with
  | nil => rfl
  | cons h rest ih =>
    unfold runSyncHandlers
    cases h.run data with
    | ok u => simpa using ih
    | error e => simpa using ih

theorem publish_fst {α : Type} (bus : EventBus α) (topic : String) (data : α) :
    (EventBus.publish bus topic data).map Prod.fst
      = (EventBus.subscribersOf bus topic).map SyncHandler.hid := by
  unfold EventBus.publish EventBus.subscribersOf
  cases alist_get bus.sync_handlers topic with
  | none => rfl
  | some hs => simpa using runSyncHandlers_fst hs data

/-- C9: `publish(topic, data)` invokes all synchronous handlers for the
topic in registration order; a raising handler is caught and every
remaining handler is still invoked (the invocation trace lists exactly
the registered handlers, in order, whatever each handler does); and
publishing to a topic with zero subscribers returns without error with an
empty trace. -/
theorem publish_invokes_all_in_order {α : Type} (bus : EventBus α)
    (topic : String) (data : α) :
    (EventBus.publish bus topic data).map Prod.fst
        = (EventBus.subscribersOf bus topic).map SyncHandler.hid
      ∧ (∀ h, h ∈ EventBus.subscribersOf bus topic →
          h.hid ∈ (EventBus.publish bus topic data).map Prod.fst)
      ∧ (alist_get bus.sync_handlers topic = none →
          EventBus.publish bus topic data = []) := by
  refine ⟨publish_fst bus topic data, ?_, ?_⟩
  · intro h hmem
    rw [publish_fst]
    exact List.mem_map_of_mem SyncHandler.hid hmem
  · intro hnone
    unfold EventBus.publish
    rw [hnone]

/-!
## Python exceptions

The exception classes that the embedded code can raise or catch.
`attributeError` models Python's `AttributeError` from a failed attribute
lookup (e.g. `Topics.SERVER_TOOL` when the `Topics` class has no such
attribute).
-/

inductive PyExc where
  | attributeError (name : String)
  | clientResponseError (status : Nat)
  | clientError (msg : String)
  | connectionError (msg : String)
  | timeoutError
  | valueError (msg : String)
  | typeError (msg : String)
  | keyError (msg : String)
  | otherExc (msg : String)
deriving DecidableEq

/-!
## Topics (src/core/event_bus.py, class Topics)

The class body defines exactly these nine string constants; attribute
access on the class is a lookup in this table, raising `AttributeError`
for any name that is not defined.
-/

/-- Class attributes of `Topics`, exactly as defined in event_bus.py. -/
def Topics.attrs : List (String × String) :=
  [("PLUGIN_EVENT", "plugin.event"),
   ("SERVER_ACTION", "server.action"),
   ("SERVER_CONNECTED", "server.connected"),
   ("SERVER_DISCONNECTED", "server.disconnected"),
   ("UI_QUIT_REQUESTED", "ui.quit.requested"),
   ("UI_SETTINGS_REQUESTED", "ui.settings.requested"),
   ("UI_SETTINGS_CHANGED", "ui.settings.changed"),
   ("APP_INITIALIZED", "app.initialized"),
   ("APP_SHUTDOWN", "app.shutdown")]

/-- Python attribute lookup `Topics.<name>`: returns the constant or
raises `AttributeError`. -/
def Topics.getattr (name : String) : Except PyExc String :=
  match alist_get Topics.attrs name with
  | some v => Except.ok v
  | none => Except.error (PyExc.attributeError name)

/-!
## ServerClient tool dispatch (src/core/server_client.py)
-/

/-- ToolTask (src/core/models.py): a tool invocation decoded from a
server-pushed message. -/
structure ToolTask where
  type : String
  parameters : List (String × String)
deriving DecidableEq

/-- `ServerClient._dispatch_tool` when an EventBus is attached:
`self._event_bus.publish(Topics.SERVER_TOOL, tool)`.  The attribute
lookup happens first; the returned list records the publish calls that
were performed (topic, payload). -/
def dispatch_tool_with_bus (tool : ToolTask) :
    Except PyExc (List (String × ToolTask)) :=
  match Topics.getattr "SERVER_TOOL" with
  | Except.ok topic => Except.ok [(topic, tool)]
  | Except.error e => Except.error e

/-- `ToolSubscriptionHandler._handle_tool`: runs the callback
(`_dispatch_tool`) under `try/except`, so an exception is logged and
swallowed; the subscription read loop survives but nothing is
published. -/
def handle_tool_with_bus (tool : ToolTask) : List (String × ToolTask) :=
  match dispatch_tool_with_bus tool with
  | Except.ok l => l
  | Except.error _ => []

/-- C1 (code-bug evidence): the `Topics` class defines no `SERVER_TOOL`
attribute, so for every decoded ToolTask the dispatch path raises
`AttributeError`, the exception is swallowed by `_handle_tool`, and
nothing at all is published on the bus — in particular nothing under the
topic string "server.tool" that the spec and the repository's own tests
(test_event_bus.py::TestTopicsConstants,
test_server_client.py::test_dispatch_tool_to_event_bus) require. -/
theorem dispatch_tool_server_tool_missing (tool : ToolTask) :
    Topics.getattr "SERVER_TOOL"
        = Except.error (PyExc.attributeError "SERVER_TOOL")
      ∧ dispatch_tool_with_bus tool
        = Except.error (PyExc.attributeError "SERVER_TOOL")
      ∧ handle_tool_with_bus tool = [] := by
  refine ⟨rfl, ?_, ?_⟩ <;> rfl

/-!
## ServerClient reconnect state machine (src/core/server_client.py,
`_schedule_reconnect`, `connect`)

Only the fields read or written by `_schedule_reconnect` are modelled.
The asyncio delay and the background task object are represented by the
`reconnect_task_pending` flag (`self._reconnect_task and not
self._reconnect_task.done()`).
-/

structure ReconnectState where
  should_reconnect : Bool
  reconnect_task_pending : Bool
  reconnect_attempts : Nat
  max_reconnect_attempts : Nat
  has_event_bus : Bool
deriving DecidableEq

/-- Result of one `_schedule_reconnect` call: the mutated client state,
the (topic, reason) events published on the bus, and the exception that
propagates to the caller, if any. -/
structure SchedOut where
  state : ReconnectState
  events : List (String × String)
  exn : Option PyExc
deriving DecidableEq

/-- `ServerClient._schedule_reconnect`, line for line: return if reconnect
is not desired or a task is pending; if the attempt counter has reached
the ceiling, set `_should_reconnect := False` and publish
`(Topics.SERVER_ERROR, "max_retries")` when a bus is attached (the
attribute lookup can raise); otherwise increment the counter and schedule
a delayed reconnect task. -/
def schedule_reconnect (s : ReconnectState) : SchedOut :=
  if s.should_reconnect = false then ⟨s, [], none⟩
  else if s.reconnect_task_pending then ⟨s, [], none⟩
  else if s.max_reconnect_attempts ≤ s.reconnect_attempts then
    let s2 := { s with should_reconnect := false }
    if s.has_event_bus then
      match Topics.getattr "SERVER_ERROR" with
      | Except.ok topic => ⟨s2, [(topic, "max_retries")], none⟩
      | Except.error e => ⟨s2, [], some e⟩
    else ⟨s2, [], none⟩
  else ⟨{ s with reconnect_attempts := s.reconnect_attempts + 1,
                 reconnect_task_pending := true }, [], none⟩

/-- One failed connect attempt: `connect()` sets `_should_reconnect :=
True` on entry; the attempt fails and the except-branch calls
`_schedule_reconnect` (the reconnect task that invoked this connect has
finished, so no task is pending). -/
def failed_connect (s : ReconnectState) : SchedOut :=
  schedule_reconnect
    { s with should_reconnect := true, reconnect_task_pending := false }

/-- A run of consecutive failed connect attempts; stops early if an
exception propagates (the reconnect task dies with it). -/
def failed_connects : Nat → ReconnectState → SchedOut
  | 0, s => ⟨s, [], none⟩
  | n + 1, s =>
    let o := failed_connect s
    match o.exn with
    | some _ => o
    | none =>
      let rest := failed_connects n o.state
      ⟨rest.state, o.events ++ rest.events, rest.exn⟩

/-- A freshly constructed client with `max_reconnect_attempts = 3` and an
EventBus attached. -/
def fresh_reconnect_state : ReconnectState :=
  ⟨false, false, 0, 3, true⟩

/-- C2 (code-bug evidence): the `Topics` class defines no `SERVER_ERROR`
attribute.  At the retry ceiling (the exact state the repository's own
test `test_max_reconnect_publishes_error_event` sets up: attempts = 3,
max = 3, bus attached) `_schedule_reconnect` does stop reconnecting but
raises `AttributeError` before publishing, so no "max_retries" error
notification is ever emitted and the exception propagates out of
`_schedule_reconnect` — hence out of `connect()`, which therefore raises
instead of returning a boolean.  Driving a fresh client through
consecutive connect failures reaches the same exception with zero events
published. -/
theorem reconnect_ceiling_attribute_error :
    Topics.getattr "SERVER_ERROR"
        = Except.error (PyExc.attributeError "SERVER_ERROR")
      ∧ schedule_reconnect ⟨true, false, 3, 3, true⟩
        = ⟨⟨false, false, 3, 3, true⟩, [],
            some (PyExc.attributeError "SERVER_ERROR")⟩
      ∧ failed_connects 4 fresh_reconnect_state
        = ⟨⟨false, false, 3, 3, true⟩, [],
            some (PyExc.attributeError "SERVER_ERROR")⟩ := by
  refine ⟨rfl, rfl, rfl⟩

/-!
## PluginManager (src/core/plugin_manager.py)

A loaded plugin is modelled by its observable contract (ToolPlugin /
TriggerPlugin in plugin_base.py): identity, enabled flag (from its
config), declared tools and capabilities, and its `initialize` /
`execute` hooks, which may raise.  Loading a plugin directory
(`_load_plugin`: module import, class resolution, instantiation,
config load) either produces such a plugin, finds no plugin class
(returns None), or raises; `LoadOutcome` is that result.  The
`timestamp` field of PluginError (wall-clock `datetime.now()`) is not
modelled.
-/

/-- ToolResult (src/core/models.py). -/
structure ToolResult where
  success : Bool
  data : List (String × String)
  error : Option String
deriving DecidableEq

/-- One capability descriptor: `{"params": [...], "description": "..."}`. -/
structure Capability where
  params : List String
  descr : String
deriving DecidableEq

/-- A loaded tool plugin (plugin_base.py ToolPlugin contract).
`initHook` models `initialize()`; `execute` models
`execute(tool_type, parameters)`; both may raise (`.error msg`, the
exception's message).  In `_load_tool` the statements after
`self._tools[plugin.plugin_id] = plugin` — the `plugin.name` read in the
log line and the iteration of `plugin.get_supported_tools()` — still run
inside the fatal try and are plugin-supplied, so they may raise:
`supported_tools` is the sequence of tool types actually yielded (and
registered, in order), and `register_exn` is the exception then raised,
if any (`some msg` with `supported_tools = []` models `plugin.name` or
`get_supported_tools()` itself raising; a non-empty prefix models a
lazily raising iterator; `none` is the normal case where the full list
was yielded). -/
structure ToolPlugin where
  plugin_id : String
  name : String
  enabled : Bool
  supported_tools : List String
  caps : List (String × Capability)
  initHook : Except String Unit
  execute : String → List (String × String) → Except String ToolResult
  register_exn : Option String

/-- A loaded trigger plugin (plugin_base.py TriggerPlugin contract).
`register_exn` models an exception raised by the statements after
`self._triggers[plugin.plugin_id] = plugin` inside the fatal try of
`_load_trigger` (the `plugin.on_event(...)` call and the `plugin.name`
read in the log line). -/
structure TriggerPlugin where
  plugin_id : String
  name : String
  enabled : Bool
  caps : List (String × Capability)
  initHook : Except String Unit
  register_exn : Option String

/-- PluginError record (plugin_manager.py); wall-clock timestamp elided. -/
structure PluginError where
  plugin_id : String
  plugin_name : String
  error_type : String
  error_message : String
  fatal : Bool
deriving DecidableEq

/-- Result of `_load_plugin` on one candidate directory. -/
inductive LoadOutcome (π : Type) where
  | ok (p : π)
  | classNotFound
  | exn (msg : String)

/-- A candidate plugin directory (its name, and what loading it does). -/
structure PluginDir (π : Type) where
  dirname : String
  load : LoadOutcome π

/-- PluginManager state: `_triggers`, `_tools`, `_tool_handlers` (dicts)
and `_plugin_errors` (list). -/
structure PluginManager where
  triggers : List (String × TriggerPlugin)
  tools : List (String × ToolPlugin)
  tool_handlers : List (String × ToolPlugin)
  plugin_errors : List PluginError

def PluginManager.empty : PluginManager := ⟨[], [], [], []⟩

/-- Python `plugin_id.replace("_", " ").title()` (ASCII): the character
after a non-letter is uppercased, every other letter lowercased. -/
def py_title_go : Bool → List Char → List Char
  | _, [] => []
  | prevCased, c :: cs =>
    (if prevCased then c.toLower else c.toUpper) :: py_title_go c.isAlpha cs

/-- The `plugin_name` derived for an error record in `_load_trigger` /
`_load_tool`: `plugin_id.replace("_", " ").title()`. -/
def plugin_display_name (s : String) : String :=
  String.mk (py_title_go false (s.data.map (fun c => if c = '_' then ' ' else c)))

/-- `PluginManager._record_error`: append a PluginError. -/
def PluginManager.record_error (pm : PluginManager)
    (pid pname etype emsg : String) (fatal : Bool) : PluginManager :=
  { pm with plugin_errors := pm.plugin_errors ++ [⟨pid, pname, etype, emsg, fatal⟩] }

/-- `PluginManager._load_tool`.  The fatal try spans the whole body: if
`_load_plugin` itself raises (`LoadOutcome.exn`), a fatal "load" error is
recorded and nothing is registered.  If `_load_plugin` returns a plugin,
`self._tools[plugin.plugin_id] = plugin` runs FIRST; the subsequent
`plugin.name` log read and `get_supported_tools()` loop register the
yielded tool types in order (later registrations overwrite) and, if they
raise (`register_exn`), the fatal "load" error is recorded with the
plugin still registered in `_tools` and its yielded prefix still in
`_tool_handlers`.  A `None`/non-ToolPlugin result registers nothing and
records nothing. -/
def PluginManager.load_tool (pm : PluginManager) (d : PluginDir ToolPlugin) :
    PluginManager :=
  match d.load with
  | LoadOutcome.ok p =>
    let pm2 :=
      { pm with tools := dict_set pm.tools p.plugin_id p,
                tool_handlers :=
                  p.supported_tools.foldl (fun m t => dict_set m t p)
                    pm.tool_handlers }
    match p.register_exn with
    | none => pm2
    | some msg =>
      pm2.record_error d.dirname (plugin_display_name d.dirname) "load" msg true
  | LoadOutcome.classNotFound => pm
  | LoadOutcome.exn msg =>
    pm.record_error d.dirname (plugin_display_name d.dirname) "load" msg true

/-- `PluginManager._load_trigger`: as `_load_tool` but registering into
`_triggers` only; `self._triggers[plugin.plugin_id] = plugin` precedes
the `plugin.on_event` / `plugin.name` statements, so an exception there
(`register_exn`) records a fatal "load" error with the plugin still
registered. -/
def PluginManager.load_trigger (pm : PluginManager)
    (d : PluginDir TriggerPlugin) : PluginManager :=
  match d.load with
  | LoadOutcome.ok p =>
    let pm2 := { pm with triggers := dict_set pm.triggers p.plugin_id p }
    match p.register_exn with
    | none => pm2
    | some msg =>
      pm2.record_error d.dirname (plugin_display_name d.dirname) "load" msg true
  | LoadOutcome.classNotFound => pm
  | LoadOutcome.exn msg =>
    pm.record_error d.dirname (plugin_display_name d.dirname) "load" msg true

/-- `PluginManager.discover_plugins`: load every candidate under
`triggers/`, then every candidate under `tools/`, each independently. -/
def PluginManager.discover_plugins (pm : PluginManager)
    (tdirs : List (PluginDir TriggerPlugin))
    (adirs : List (PluginDir ToolPlugin)) : PluginManager :=
  adirs.foldl PluginManager.load_tool (tdirs.foldl PluginManager.load_trigger pm)

/-- One step of `initialize_all` for a trigger plugin: call the init hook
of an enabled plugin; an exception is recorded as a NON-fatal
"initialize" error. -/
def PluginManager.init_trigger (pm : PluginManager) (p : TriggerPlugin) :
    PluginManager :=
  if p.enabled then
    match p.initHook with
    | Except.ok _ => pm
    | Except.error e => pm.record_error p.plugin_id p.name "initialize" e false
  else pm

/-- One step of `initialize_all` for a tool plugin. -/
def PluginManager.init_tool (pm : PluginManager) (p : ToolPlugin) :
    PluginManager :=
  if p.enabled then
    match p.initHook with
    | Except.ok _ => pm
    | Except.error e => pm.record_error p.plugin_id p.name "initialize" e false
  else pm

/-- `PluginManager.initialize_all`: iterate
`list(self._triggers.values()) + list(self._tools.values())`. -/
def PluginManager.initialize_all (pm : PluginManager) : PluginManager :=
  (pm.tools.map Prod.snd).foldl PluginManager.init_tool
    ((pm.triggers.map Prod.snd).foldl PluginManager.init_trigger pm)

/-- `PluginManager.execute_tool`: total — every Python exception from the
handler is caught, so the Lean type is `ToolResult`, not `Except`. -/
def PluginManager.execute_tool (pm : PluginManager) (tool_type : String)
    (parameters : List (String × String)) : ToolResult :=
  match alist_get pm.tool_handlers tool_type with
  | none => ⟨false, [], some ("No handler for " ++ tool_type)⟩
  | some handler =>
    if handler.enabled = false then
      ⟨false, [], some ("Handler " ++ handler.name ++ " is disabled")⟩
    else
      match handler.execute tool_type parameters with
      | Except.ok r => r
      | Except.error e => ⟨false, [], some e⟩

/-- The per-plugin merge loop of `get_capabilities`:
`for name, cap in plugin.get_capabilities().items(): out[name] = cap`. -/
def merge_caps (acc : List (String × Capability))
    (caps : List (String × Capability)) : List (String × Capability) :=
  caps.foldl (fun a nc => dict_set a nc.1 nc.2) acc

/-- `PluginManager.get_capabilities`: aggregate descriptors from enabled
plugins only; later plugins overwrite colliding names.  Returns the
(triggers, tools) pair of the manifest. -/
def PluginManager.get_capabilities (pm : PluginManager) :
    List (String × Capability) × List (String × Capability) :=
  ((pm.triggers.map Prod.snd).foldl
      (fun acc t => if t.enabled then merge_caps acc t.caps else acc) [],
   (pm.tools.map Prod.snd).foldl
      (fun acc a => if a.enabled then merge_caps acc a.caps else acc) [])

/-- `PluginManager.get_failed_plugins`: the dict comprehension
`{err.plugin_id: err for err in self._plugin_errors if err.fatal}`. -/
def PluginManager.get_failed_plugins (pm : PluginManager) :
    List (String × PluginError) :=
  pm.plugin_errors.foldl
    (fun m e => if e.fatal then dict_set m e.plugin_id e else m) []

/-- C4: `execute_tool(tool_type, parameters)` never raises (it is a total
function into ToolResult) and produces a failure ToolResult with a
non-null error message in exactly the three dispatcher failure cases —
no registered handler owns the type, the owning handler is disabled, or
the owning handler's execute raises, with the exception's message
becoming `ToolResult.error`; in every other case it returns the owning
handler's own result unchanged. -/
theorem execute_tool_spec (pm : PluginManager) (tool_type : String)
    (parameters : List (String × String)) :
    (alist_get pm.tool_handlers tool_type = none →
        pm.execute_tool tool_type parameters
          = ⟨false, [], some ("No handler for " ++ tool_type)⟩)
  ∧ (∀ h, alist_get pm.tool_handlers tool_type = some h →
      h.enabled = false →
        pm.execute_tool tool_type parameters
          = ⟨false, [], some ("Handler " ++ h.name ++ " is disabled")⟩)
  ∧ (∀ h e, alist_get pm.tool_handlers tool_type = some h →
      h.enabled = true → h.execute tool_type parameters = Except.error e →
        pm.execute_tool tool_type parameters = ⟨false, [], some e⟩)
  ∧ (∀ h r, alist_get pm.tool_handlers tool_type = some h →
      h.enabled = true → h.execute tool_type parameters = Except.ok r →
        pm.execute_tool tool_type parameters = r) := by
  refine ⟨?_, ?_, ?_, ?_⟩
  · intro hnone
    simp [PluginManager.execute_tool, hnone]
  · intro h hfind hdis
    simp [PluginManager.execute_tool, hfind, hdis]
  · intro h e hfind hen hexec
    simp [PluginManager.execute_tool, hfind, hen, hexec]
  · intro h r hfind hen hexec
    simp [PluginManager.execute_tool, hfind, hen, hexec]

/-- A concrete tool plugin whose execute raises. -/
def wit_tool_plugin : ToolPlugin :=
  ⟨"tts", "TTS", true, ["desktop.tool.tts.speak"], [], Except.ok (),
   fun _ _ => Except.error "speak failed", none⟩

/-- A concrete manager owning exactly that plugin. -/
def wit_pm : PluginManager :=
  ⟨[], [("tts", wit_tool_plugin)], [("desktop.tool.tts.speak", wit_tool_plugin)], []⟩

theorem execute_tool_spec_witness :
    wit_pm.execute_tool "unknown.type" []
        = ⟨false, [], some "No handler for unknown.type"⟩
      ∧ wit_pm.execute_tool "desktop.tool.tts.speak" []
        = ⟨false, [], some "speak failed"⟩ :=
  ⟨(execute_tool_spec wit_pm "unknown.type" []).1 rfl,
   (execute_tool_spec wit_pm "desktop.tool.tts.speak" []).2.2.1
     wit_tool_plugin "speak failed" rfl rfl rfl⟩

/-!
Supporting lemmas for C3: a fatally failing plugin directory contributes
an error record and nothing else, so the routing-relevant state
(`_triggers`, `_tools`, `_tool_handlers`) is as if the directory had not
been there.
-/

/-- The part of the manager state that `get_capabilities` and
`execute_tool` read. -/
def PluginManager.routing (pm : PluginManager) :
    List (String × TriggerPlugin) × List (String × ToolPlugin)
      × List (String × ToolPlugin) :=
  (pm.triggers, pm.tools, pm.tool_handlers)

theorem routing_parts {pm1 pm2 : PluginManager}
    (h : pm1.routing = pm2.routing) :
    pm1.triggers = pm2.triggers ∧ pm1.tools = pm2.tools
      ∧ pm1.tool_handlers = pm2.tool_handlers :=
  ⟨congrArg Prod.fst h, congrArg (fun x => x.2.1) h,
   congrArg (fun x => x.2.2) h⟩

theorem load_tool_routing_congr {pm1 pm2 : PluginManager}
    (h : pm1.routing = pm2.routing) (d : PluginDir ToolPlugin) :
    (pm1.load_tool d).routing = (pm2.load_tool d).routing := by
  obtain ⟨h1, h2, h3⟩ := routing_parts h
  cases hd : d.load with
  | ok p =>
    cases hre : p.register_exn <;>
      simp [PluginManager.load_tool, hd, hre, PluginManager.record_error,
        PluginManager.routing, h1, h2, h3]
  | classNotFound =>
    simpa [PluginManager.load_tool, hd] using h
  | exn msg =>
    simp [PluginManager.load_tool, hd, PluginManager.record_error,
      PluginManager.routing, h1, h2, h3]

theorem load_trigger_routing_congr {pm1 pm2 : PluginManager}
    (h : pm1.routing = pm2.routing) (d : PluginDir TriggerPlugin) :
    (pm1.load_trigger d).routing = (pm2.load_trigger d).routing := by
  obtain ⟨h1, h2, h3⟩ := routing_parts h
  cases hd : d.load with
  | ok p =>
    cases hre : p.register_exn <;>
      simp [PluginManager.load_trigger, hd, hre, PluginManager.record_error,
        PluginManager.routing, h1, h2, h3]
  | classNotFound =>
    simpa [PluginManager.load_trigger, hd] using h
  | exn msg =>
    simp [PluginManager.load_trigger, hd, PluginManager.record_error,
      PluginManager.routing, h1, h2, h3]

theorem foldl_load_tool_routing_congr {pm1 pm2 : PluginManager}
    (h : pm1.routing = pm2.routing) (adirs : List (PluginDir ToolPlugin)) :
    (adirs.foldl PluginManager.load_tool pm1).routing
      = (adirs.foldl PluginManager.load_tool pm2).routing := by
  induction adirs generalizing pm1 pm2 with
  | nil => exact h
  | cons d rest ih => exact ih (load_tool_routing_congr h d)

theorem foldl_load_trigger_routing_congr {pm1 pm2 : PluginManager}
    (h : pm1.routing = pm2.routing) (tdirs : List (PluginDir TriggerPlugin)) :
    (tdirs.foldl PluginManager.load_trigger pm1).routing
      = (tdirs.foldl PluginManager.load_trigger pm2).routing := by
  induction tdirs generalizing pm1 pm2 with
  | nil => exact h
  | cons d rest ih => exact ih (load_trigger_routing_congr h d)

theorem load_tool_exn_routing (pm : PluginManager) {d : PluginDir ToolPlugin}
    {msg : String} (hd : d.load = LoadOutcome.exn msg) :
    (pm.load_tool d).routing = pm.routing := by
  simp [PluginManager.load_tool, hd, PluginManager.record_error,
    PluginManager.routing]

theorem load_trigger_exn_routing (pm : PluginManager)
    {d : PluginDir TriggerPlugin} {msg : String}
    (hd : d.load = LoadOutcome.exn msg) :
    (pm.load_trigger d).routing = pm.routing := by
  simp [PluginManager.load_trigger, hd, PluginManager.record_error,
    PluginManager.routing]

theorem init_trigger_routing (pm : PluginManager) (p : TriggerPlugin) :
    (pm.init_trigger p).routing = pm.routing := by
  unfold PluginManager.init_trigger
  cases hi : p.initHook with
  | ok u => simp [hi]
  | error e =>
    by_cases hp : p.enabled <;>
      simp [hp, hi, PluginManager.record_error, PluginManager.routing]

theorem init_tool_routing (pm : PluginManager) (p : ToolPlugin) :
    (pm.init_tool p).routing = pm.routing := by
  unfold PluginManager.init_tool
  cases hi : p.initHook with
  | ok u => simp [hi]
  | error e =>
    by_cases hp : p.enabled <;>
      simp [hp, hi, PluginManager.record_error, PluginManager.routing]

theorem foldl_routing_invariant {β : Type}
    (f : PluginManager → β → PluginManager)
    (hf : ∀ pm b, (f pm b).routing = pm.routing) :
    ∀ (l : List β) (pm : PluginManager), (l.foldl f pm).routing = pm.routing := by
  intro l
  induction l with
  | nil => intro pm; rfl
  | cons b rest ih => intro pm; rw [List.foldl_cons, ih, hf]

theorem initialize_all_routing (pm : PluginManager) :
    pm.initialize_all.routing = pm.routing := by
  unfold PluginManager.initialize_all
  rw [foldl_routing_invariant PluginManager.init_tool init_tool_routing,
      foldl_routing_invariant PluginManager.init_trigger init_trigger_routing]

theorem get_capabilities_congr {pm1 pm2 : PluginManager}
    (h : pm1.routing = pm2.routing) :
    pm1.get_capabilities = pm2.get_capabilities := by
  obtain ⟨h1, h2, h3⟩ := routing_parts h
  unfold PluginManager.get_capabilities
  rw [h1, h2]

theorem execute_tool_congr {pm1 pm2 : PluginManager}
    (h : pm1.routing = pm2.routing) (t : String) (p : List (String × String)) :
    pm1.execute_tool t p = pm2.execute_tool t p := by
  obtain ⟨h1, h2, h3⟩ := routing_parts h
  unfold PluginManager.execute_tool
  rw [h3]

/-- Every error recorded so far survives a `_load_tool` call (errors are
only ever appended). -/
theorem errors_subset_load_tool (pm : PluginManager) (d : PluginDir ToolPlugin)
    (e : PluginError) (he : e ∈ pm.plugin_errors) :
    e ∈ (pm.load_tool d).plugin_errors := by
  unfold PluginManager.load_tool
  cases d.load with
  | ok p =>
    cases hre : p.register_exn with
    | none => simpa [hre] using he
    | some msg =>
      simp [hre, PluginManager.record_error]
      exact Or.inl he
  | classNotFound => simpa using he
  | exn msg =>
    simp [PluginManager.record_error]
    exact Or.inl he

theorem errors_subset_load_trigger (pm : PluginManager)
    (d : PluginDir TriggerPlugin) (e : PluginError)
    (he : e ∈ pm.plugin_errors) : e ∈ (pm.load_trigger d).plugin_errors := by
  unfold PluginManager.load_trigger
  cases d.load with
  | ok p =>
    cases hre : p.register_exn with
    | none => simpa [hre] using he
    | some msg =>
      simp [hre, PluginManager.record_error]
      exact Or.inl he
  | classNotFound => simpa using he
  | exn msg =>
    simp [PluginManager.record_error]
    exact Or.inl he

theorem errors_subset_init_trigger (pm : PluginManager) (p : TriggerPlugin)
    (e : PluginError) (he : e ∈ pm.plugin_errors) :
    e ∈ (pm.init_trigger p).plugin_errors := by
  unfold PluginManager.init_trigger
  cases p.initHook with
  | ok u => simpa using he
  | error msg =>
    by_cases hp : p.enabled
    · simp [hp, PluginManager.record_error]
      exact Or.inl he
    · simpa [hp] using he

theorem errors_subset_init_tool (pm : PluginManager) (p : ToolPlugin)
    (e : PluginError) (he : e ∈ pm.plugin_errors) :
    e ∈ (pm.init_tool p).plugin_errors := by
  unfold PluginManager.init_tool
  cases p.initHook with
  | ok u => simpa using he
  | error msg =>
    by_cases hp : p.enabled
    · simp [hp, PluginManager.record_error]
      exact Or.inl he
    · simpa [hp] using he

theorem errors_subset_foldl {β : Type} (f : PluginManager → β → PluginManager)
    (hf : ∀ pm b e, e ∈ pm.plugin_errors → e ∈ (f pm b).plugin_errors) :
    ∀ (l : List β) (pm : PluginManager) (e : PluginError),
      e ∈ pm.plugin_errors → e ∈ (l.foldl f pm).plugin_errors := by
  intro l
  induction l with
  | nil => intro pm e he; exact he
  | cons b rest ih => intro pm e he; exact ih _ e (hf pm b e he)

theorem errors_subset_initialize_all (pm : PluginManager) (e : PluginError)
    (he : e ∈ pm.plugin_errors) : e ∈ pm.initialize_all.plugin_errors := by
  unfold PluginManager.initialize_all
  exact errors_subset_foldl PluginManager.init_tool errors_subset_init_tool _ _ e
    (errors_subset_foldl PluginManager.init_trigger errors_subset_init_trigger
      _ _ e he)

/-- A fatally failing tool directory leaves exactly its fatal "load"
record in the error list. -/
theorem load_tool_exn_mem (pm : PluginManager) {d : PluginDir ToolPlugin}
    {msg : String} (hd : d.load = LoadOutcome.exn msg) :
    (⟨d.dirname, plugin_display_name d.dirname, "load", msg, true⟩ : PluginError)
      ∈ (pm.load_tool d).plugin_errors := by
  simp [PluginManager.load_tool, hd, PluginManager.record_error]

theorem load_trigger_exn_mem (pm : PluginManager)
    {d : PluginDir TriggerPlugin} {msg : String}
    (hd : d.load = LoadOutcome.exn msg) :
    (⟨d.dirname, plugin_display_name d.dirname, "load", msg, true⟩ : PluginError)
      ∈ (pm.load_trigger d).plugin_errors := by
  simp [PluginManager.load_trigger, hd, PluginManager.record_error]

/-- Invariant: every fatal error record is a load-time record (the only
`fatal=True` call sites are `_load_trigger` and `_load_tool`). -/
def fatalIsLoad (pm : PluginManager) : Prop :=
  ∀ e ∈ pm.plugin_errors, e.fatal = true → e.error_type = "load"

theorem fatalIsLoad_load_tool {pm : PluginManager} (h : fatalIsLoad pm)
    (d : PluginDir ToolPlugin) : fatalIsLoad (pm.load_tool d) := by
  intro e he hf
  unfold PluginManager.load_tool at he
  revert he
  cases d.load with
  | ok p =>
    cases hre : p.register_exn with
    | none => intro he; exact h e (by simpa [hre] using he) hf
    | some msg =>
      intro he
      simp [hre, PluginManager.record_error] at he
      cases he with
      | inl h0 => exact h e h0 hf
      | inr h0 => rw [h0]
  | classNotFound => intro he; exact h e he hf
  | exn msg =>
    intro he
    simp [PluginManager.record_error] at he
    cases he with
    | inl h0 => exact h e h0 hf
    | inr h0 => rw [h0]

theorem fatalIsLoad_load_trigger {pm : PluginManager} (h : fatalIsLoad pm)
    (d : PluginDir TriggerPlugin) : fatalIsLoad (pm.load_trigger d) := by
  intro e he hf
  unfold PluginManager.load_trigger at he
  revert he
  cases d.load with
  | ok p =>
    cases hre : p.register_exn with
    | none => intro he; exact h e (by simpa [hre] using he) hf
    | some msg =>
      intro he
      simp [hre, PluginManager.record_error] at he
      cases he with
      | inl h0 => exact h e h0 hf
      | inr h0 => rw [h0]
  | classNotFound => intro he; exact h e he hf
  | exn msg =>
    intro he
    simp [PluginManager.record_error] at he
    cases he with
    | inl h0 => exact h e h0 hf
    | inr h0 => rw [h0]

theorem fatalIsLoad_init_trigger {pm : PluginManager} (h : fatalIsLoad pm)
    (p : TriggerPlugin) : fatalIsLoad (pm.init_trigger p) := by
  intro e he hf
  unfold PluginManager.init_trigger at he
  revert he
  cases p.initHook with
  | ok u => intro he; exact h e (by simpa using he) hf
  | error msg =>
    by_cases hp : p.enabled
    · intro he
      simp [hp, PluginManager.record_error] at he
      cases he with
      | inl h0 => exact h e h0 hf
      | inr h0 => rw [h0] at hf; simp at hf
    · intro he; exact h e (by simpa [hp] using he) hf

theorem fatalIsLoad_init_tool {pm : PluginManager} (h : fatalIsLoad pm)
    (p : ToolPlugin) : fatalIsLoad (pm.init_tool p) := by
  intro e he hf
  unfold PluginManager.init_tool at he
  revert he
  cases p.initHook with
  | ok u => intro he; exact h e (by simpa using he) hf
  | error msg =>
    by_cases hp : p.enabled
    · intro he
      simp [hp, PluginManager.record_error] at he
      cases he with
      | inl h0 => exact h e h0 hf
      | inr h0 => rw [h0] at hf; simp at hf
    · intro he; exact h e (by simpa [hp] using he) hf

theorem fatalIsLoad_foldl {β : Type} (f : PluginManager → β → PluginManager)
    (hf : ∀ pm b, fatalIsLoad pm → fatalIsLoad (f pm b)) :
    ∀ (l : List β) (pm : PluginManager), fatalIsLoad pm →
      fatalIsLoad (l.foldl f pm) := by
  intro l
  induction l with
  | nil => intro pm h; exact h
  | cons b rest ih => intro pm h; exact ih _ (hf pm b h)

theorem fatalIsLoad_discover_init
    (tdirs : List (PluginDir TriggerPlugin))
    (adirs : List (PluginDir ToolPlugin)) :
    fatalIsLoad (PluginManager.empty.discover_plugins tdirs adirs).initialize_all := by
  unfold PluginManager.initialize_all PluginManager.discover_plugins
  apply fatalIsLoad_foldl PluginManager.init_tool (fun pm p h => fatalIsLoad_init_tool h p)
  apply fatalIsLoad_foldl PluginManager.init_trigger (fun pm p h => fatalIsLoad_init_trigger h p)
  apply fatalIsLoad_foldl PluginManager.load_tool (fun pm d h => fatalIsLoad_load_tool h d)
  apply fatalIsLoad_foldl PluginManager.load_trigger (fun pm d h => fatalIsLoad_load_trigger h d)
  intro e he
  simp [PluginManager.empty] at he

theorem alist_get_dict_set_self {α : Type} (m : List (String × α))
    (k : String) (v : α) : alist_get (dict_set m k v) k = some v := by
  induction m with
  | nil => simp [dict_set, alist_get]
  | cons kv rest ih =>
    obtain ⟨k0, v0⟩ := kv
    by_cases hk : k0 = k
    · simp [dict_set, alist_get, hk]
    · simp [dict_set, alist_get, hk, ih]

theorem alist_get_dict_set_other {α : Type} (m : List (String × α))
    (k k2 : String) (v : α) (hne : k ≠ k2) :
    alist_get (dict_set m k v) k2 = alist_get m k2 := by
  induction m with
  | nil => simp [dict_set, alist_get, hne]
  | cons kv rest ih =>
    obtain ⟨k0, v0⟩ := kv
    by_cases hk : k0 = k
    · subst hk
      simp [dict_set, alist_get, hne]
    · by_cases hk2 : k0 = k2
      · simp [dict_set, alist_get, hk, hk2, Ne.symm hne]
      · simp [dict_set, alist_get, hk, hk2, ih]

/-- The dict-comprehension fold of `get_failed_plugins` keeps, for any
key that some fatal record carries, a fatal record under that key. -/
theorem failed_fold_good (l : List PluginError) (k : String)
    (hall : ∀ e ∈ l, e.fatal = true → e.error_type = "load") :
    ∀ (m : List (String × PluginError)),
      ((∃ e ∈ l, e.fatal = true ∧ e.plugin_id = k)
        ∨ (∃ rec, alist_get m k = some rec ∧ rec.fatal = true
            ∧ rec.plugin_id = k ∧ rec.error_type = "load")) →
      ∃ rec,
        alist_get
          (l.foldl (fun m e => if e.fatal then dict_set m e.plugin_id e else m) m)
          k = some rec
        ∧ rec.fatal = true ∧ rec.plugin_id = k ∧ rec.error_type = "load" := by
  induction l with
  | nil =>
    intro m h
    rcases h with ⟨e, he, _⟩ | hg
    · exact absurd he (List.not_mem_nil e)
    · exact hg
  | cons e0 rest ih =>
    intro m h
    rw [List.foldl_cons]
    apply ih (fun e he hf => hall e (List.mem_cons_of_mem e0 he) hf)
    rcases h with ⟨e, he, hf, hk⟩ | hg
    · rcases List.mem_cons.mp he with heq | hrest
      · subst heq
        right
        subst hk
        refine ⟨e, ?_, hf, rfl, hall e (List.mem_cons_self e rest) hf⟩
        simp [hf, alist_get_dict_set_self]
      · left
        exact ⟨e, hrest, hf, hk⟩
    · right
      obtain ⟨rec, hget, hrf, hrk, hrt⟩ := hg
      by_cases hf0 : e0.fatal = true
      · by_cases hkk : e0.plugin_id = k
        · refine ⟨e0, ?_, hf0, hkk,
            hall e0 (List.mem_cons_self e0 rest) hf0⟩
          rw [← hkk]
          simp [hf0, alist_get_dict_set_self]
        · refine ⟨rec, ?_, hrf, hrk, hrt⟩
          simp only [hf0, if_true]
          rw [alist_get_dict_set_other m e0.plugin_id k e0 hkk]
          exact hget
      · refine ⟨rec, ?_, hrf, hrk, hrt⟩
        simpa [hf0] using hget

/-- If the manager holds a fatal record with plugin id `k` and every
fatal record is a load record, then `get_failed_plugins()[k]` is a fatal
load record for `k`. -/
theorem get_failed_plugins_good (pm : PluginManager) (k : String)
    (hinv : fatalIsLoad pm)
    (hmem : ∃ e ∈ pm.plugin_errors, e.fatal = true ∧ e.plugin_id = k) :
    ∃ rec, alist_get pm.get_failed_plugins k = some rec
      ∧ rec.fatal = true ∧ rec.plugin_id = k ∧ rec.error_type = "load" := by
  unfold PluginManager.get_failed_plugins
  exact failed_fold_good pm.plugin_errors k hinv [] (Or.inl hmem)

/-- C3 amended: a plugin directory whose `_load_plugin` call itself
raises (module import, class resolution, instantiation, or config
parsing — a fatal load-time error that occurs before anything is
registered) contributes nothing after `discover_plugins()` +
`initialize_all()`: the capability manifest and all `execute_tool`
routing are exactly as if the directory had not been discovered at all,
and a fatal "load" error record under its id is returned by
`get_failed_plugins()`.  Stated for a failing candidate at any position
in the tools scan (first conjunct) and in the triggers scan (second
conjunct).  (A fatal load error raised after registration — by
`plugin.name` or `get_supported_tools()` — does NOT exclude the plugin;
see the counterexample to the original claim below.) -/
theorem fatal_load_excluded :
    (∀ (tdirs : List (PluginDir TriggerPlugin))
       (adirs1 adirs2 : List (PluginDir ToolPlugin))
       (d : PluginDir ToolPlugin) (msg : String),
      d.load = LoadOutcome.exn msg →
        ((PluginManager.empty.discover_plugins tdirs
            (adirs1 ++ d :: adirs2)).initialize_all.get_capabilities
          = (PluginManager.empty.discover_plugins tdirs
              (adirs1 ++ adirs2)).initialize_all.get_capabilities)
        ∧ (∀ t p,
            (PluginManager.empty.discover_plugins tdirs
              (adirs1 ++ d :: adirs2)).initialize_all.execute_tool t p
            = (PluginManager.empty.discover_plugins tdirs
                (adirs1 ++ adirs2)).initialize_all.execute_tool t p)
        ∧ (∃ rec,
            alist_get (PluginManager.empty.discover_plugins tdirs
              (adirs1 ++ d :: adirs2)).initialize_all.get_failed_plugins
              d.dirname = some rec
            ∧ rec.fatal = true ∧ rec.plugin_id = d.dirname
            ∧ rec.error_type = "load"))
  ∧ (∀ (tdirs1 tdirs2 : List (PluginDir TriggerPlugin))
       (td : PluginDir TriggerPlugin)
       (adirs : List (PluginDir ToolPlugin)) (msg : String),
      td.load = LoadOutcome.exn msg →
        ((PluginManager.empty.discover_plugins (tdirs1 ++ td :: tdirs2)
            adirs).initialize_all.get_capabilities
          = (PluginManager.empty.discover_plugins (tdirs1 ++ tdirs2)
              adirs).initialize_all.get_capabilities)
        ∧ (∀ t p,
            (PluginManager.empty.discover_plugins (tdirs1 ++ td :: tdirs2)
              adirs).initialize_all.execute_tool t p
            = (PluginManager.empty.discover_plugins (tdirs1 ++ tdirs2)
                adirs).initialize_all.execute_tool t p)
        ∧ (∃ rec,
            alist_get (PluginManager.empty.discover_plugins
              (tdirs1 ++ td :: tdirs2) adirs).initialize_all.get_failed_plugins
              td.dirname = some rec
            ∧ rec.fatal = true ∧ rec.plugin_id = td.dirname
            ∧ rec.error_type = "load")) := by
  constructor
  · intro tdirs a1 a2 d msg hd
    have hr : (PluginManager.empty.discover_plugins tdirs
          (a1 ++ d :: a2)).initialize_all.routing
        = (PluginManager.empty.discover_plugins tdirs
            (a1 ++ a2)).initialize_all.routing := by
      rw [initialize_all_routing, initialize_all_routing]
      unfold PluginManager.discover_plugins
      rw [List.foldl_append, List.foldl_append, List.foldl_cons]
      exact foldl_load_tool_routing_congr (load_tool_exn_routing _ hd) a2
    refine ⟨get_capabilities_congr hr, fun t p => execute_tool_congr hr t p, ?_⟩
    apply get_failed_plugins_good _ _ (fatalIsLoad_discover_init _ _)
    refine ⟨⟨d.dirname, plugin_display_name d.dirname, "load", msg, true⟩,
      ?_, rfl, rfl⟩
    apply errors_subset_initialize_all
    unfold PluginManager.discover_plugins
    rw [List.foldl_append, List.foldl_cons]
    exact errors_subset_foldl PluginManager.load_tool errors_subset_load_tool
      a2 _ _ (load_tool_exn_mem _ hd)
  · intro t1 t2 td adirs msg htd
    have hr : (PluginManager.empty.discover_plugins (t1 ++ td :: t2)
          adirs).initialize_all.routing
        = (PluginManager.empty.discover_plugins (t1 ++ t2)
            adirs).initialize_all.routing := by
      rw [initialize_all_routing, initialize_all_routing]
      unfold PluginManager.discover_plugins
      apply foldl_load_tool_routing_congr _ adirs
      rw [List.foldl_append, List.foldl_append, List.foldl_cons]
      exact foldl_load_trigger_routing_congr (load_trigger_exn_routing _ htd) t2
    refine ⟨get_capabilities_congr hr, fun t p => execute_tool_congr hr t p, ?_⟩
    apply get_failed_plugins_good _ _ (fatalIsLoad_discover_init _ _)
    refine ⟨⟨td.dirname, plugin_display_name td.dirname, "load", msg, true⟩,
      ?_, rfl, rfl⟩
    apply errors_subset_initialize_all
    unfold PluginManager.discover_plugins
    apply errors_subset_foldl PluginManager.load_tool errors_subset_load_tool
      adirs
    rw [List.foldl_append, List.foldl_cons]
    exact errors_subset_foldl PluginManager.load_trigger
      errors_subset_load_trigger t2 _ _ (load_trigger_exn_mem _ htd)

/-- A concrete healthy tool plugin for the C3 witness. -/
def wit_good_tool : ToolPlugin :=
  ⟨"screenshot", "Screenshot", true, ["desktop.tool.screenshot.take"],
   [("desktop.tool.screenshot.take", ⟨[], "take a screenshot"⟩)],
   Except.ok (), fun _ _ => Except.ok ⟨true, [], none⟩, none⟩

def wit_good_dir : PluginDir ToolPlugin :=
  ⟨"screenshot", LoadOutcome.ok wit_good_tool⟩

def wit_broken_dir : PluginDir ToolPlugin :=
  ⟨"tts_broken", LoadOutcome.exn "boom"⟩

theorem fatal_load_excluded_witness :
    ((PluginManager.empty.discover_plugins []
        ([wit_good_dir] ++ wit_broken_dir :: [])).initialize_all.get_capabilities
      = (PluginManager.empty.discover_plugins []
          ([wit_good_dir] ++ [])).initialize_all.get_capabilities)
    ∧ ((PluginManager.empty.discover_plugins []
        ([wit_good_dir] ++ wit_broken_dir :: [])).initialize_all.execute_tool
          "desktop.tool.screenshot.take" []
      = (PluginManager.empty.discover_plugins []
          ([wit_good_dir] ++ [])).initialize_all.execute_tool
            "desktop.tool.screenshot.take" [])
    ∧ alist_get (PluginManager.empty.discover_plugins []
        ([wit_good_dir] ++ wit_broken_dir :: [])).initialize_all.get_failed_plugins
        "tts_broken" ≠ none := by
  have h := fatal_load_excluded.1 [] [wit_good_dir] [] wit_broken_dir "boom" rfl
  refine ⟨h.1, h.2.1 "desktop.tool.screenshot.take" [], ?_⟩
  obtain ⟨rec, hget, _, _, _⟩ := h.2.2
  have hget2 : alist_get (PluginManager.empty.discover_plugins []
      ([wit_good_dir] ++ wit_broken_dir :: [])).initialize_all.get_failed_plugins
      "tts_broken" = some rec := hget
  rw [hget2]
  exact fun hcontra => Option.noConfusion hcontra

/-- A tool plugin whose `_load_plugin` succeeds but whose
`get_supported_tools()` raises after yielding one tool type: the fatal
"load" error occurs after `self._tools[plugin.plugin_id] = plugin` and
after the first `self._tool_handlers[tool_type] = plugin`. -/
def cex_lazy_tool : ToolPlugin :=
  ⟨"sysinfo", "System Info", true, ["desktop.tool.sysinfo.get"],
   [("desktop.tool.sysinfo.get", ⟨[], "system information"⟩)],
   Except.ok (), fun _ _ => Except.ok ⟨true, [], none⟩, some "boom"⟩

def cex_lazy_dir : PluginDir ToolPlugin :=
  ⟨"sysinfo", LoadOutcome.ok cex_lazy_tool⟩

/-- C3 counterexample (to the original claim): this plugin incurs a
fatal load-time error during `discover_plugins()` — its fatal "load"
record is returned by `get_failed_plugins()` — and yet after
`discover_plugins()` + `initialize_all()` it still contributes its
capability to the `get_capabilities()` manifest and its tool type is
still routed to it by `execute_tool` (which executes it successfully):
the fatal `except` in `_load_tool` spans the registration statements,
and `self._tools[plugin.plugin_id] = plugin` runs before the
plugin-supplied `plugin.name` / `get_supported_tools()` calls that
raise. -/
theorem fatal_load_registered_counterexample :
    (alist_get (PluginManager.empty.discover_plugins []
          [cex_lazy_dir]).initialize_all.get_failed_plugins "sysinfo"
        = some ⟨"sysinfo", "Sysinfo", "load", "boom", true⟩)
      ∧ (alist_get (PluginManager.empty.discover_plugins []
            [cex_lazy_dir]).initialize_all.get_capabilities.2
            "desktop.tool.sysinfo.get"
          = some ⟨[], "system information"⟩)
      ∧ ((PluginManager.empty.discover_plugins []
            [cex_lazy_dir]).initialize_all.execute_tool
            "desktop.tool.sysinfo.get" []
          = ⟨true, [], none⟩) := by
  refine ⟨rfl, rfl, rfl⟩

/-!
## PluginBase.load_config (src/core/plugin_base.py)

The file system interaction of `load_config` is abstracted into what it
can observe: the config file is missing, unreadable (open/read raised),
holds invalid JSON, or parses to a JSON object.  JSON values relevant to
the configuration are modelled by `PyVal`; `validate_config` is the
(overridable) validation hook, a pure `(is_valid, error_message)`
function as its contract declares.  `load_config` is total: every
exception branch is caught in the source.
-/

inductive PyVal where
  | vbool (b : Bool)
  | vstr (s : String)
  | vint (n : Int)
deriving DecidableEq

inductive ConfigFile where
  | missing
  | unreadable (msg : String)
  | invalidJson (msg : String)
  | parsed (cfg : List (String × PyVal))

/-- `PluginBase.load_config`: missing file → `{"enabled": True}`;
unreadable file or invalid JSON → `{"enabled": False}`; parsed config
failing `validate_config` → `{"enabled": False}`; otherwise the parsed
config itself. -/
def load_config (validate : List (String × PyVal) → Bool × String)
    (file : ConfigFile) : List (String × PyVal) :=
  match file with
  | ConfigFile.missing => [("enabled", PyVal.vbool true)]
  | ConfigFile.unreadable _ => [("enabled", PyVal.vbool false)]
  | ConfigFile.invalidJson _ => [("enabled", PyVal.vbool false)]
  | ConfigFile.parsed cfg =>
    if (validate cfg).1 then cfg else [("enabled", PyVal.vbool false)]

/-- Python truthiness of a config value. -/
def py_truthy : PyVal → Bool
  | PyVal.vbool b => b
  | PyVal.vstr s => s != ""
  | PyVal.vint n => n != 0

/-- `PluginBase.enabled`: `self._config.get("enabled", True)`. -/
def plugin_enabled (cfg : List (String × PyVal)) : Bool :=
  match alist_get cfg "enabled" with
  | none => true
  | some v => py_truthy v

/-- C10: a missing config file yields `{"enabled": True}` (plugin enabled
by default); invalid JSON, or a parsed config that `validate_config`
rejects, replaces the configuration with `{"enabled": False}` (plugin
disabled); `load_config` is total, so it never raises in these cases. -/
theorem load_config_defaults
    (validate : List (String × PyVal) → Bool × String)
    (cfg : List (String × PyVal)) (msg : String) :
    (load_config validate ConfigFile.missing
        = [("enabled", PyVal.vbool true)]
      ∧ plugin_enabled (load_config validate ConfigFile.missing) = true)
  ∧ (load_config validate (ConfigFile.invalidJson msg)
        = [("enabled", PyVal.vbool false)]
      ∧ plugin_enabled (load_config validate (ConfigFile.invalidJson msg))
        = false)
  ∧ ((validate cfg).1 = false →
      load_config validate (ConfigFile.parsed cfg)
          = [("enabled", PyVal.vbool false)]
        ∧ plugin_enabled (load_config validate (ConfigFile.parsed cfg))
          = false) := by
  refine ⟨⟨rfl, rfl⟩, ⟨rfl, rfl⟩, ?_⟩
  intro hv
  constructor
  · simp [load_config, hv]
  · simp [load_config, hv, plugin_enabled, alist_get, py_truthy]

theorem load_config_defaults_witness :
    load_config (fun _ => (false, "bad value")) ConfigFile.missing
        = [("enabled", PyVal.vbool true)]
      ∧ load_config (fun _ => (false, "bad value"))
          (ConfigFile.parsed [("enabled", PyVal.vbool true)])
        = [("enabled", PyVal.vbool false)]
      ∧ plugin_enabled (load_config (fun _ => (false, "bad value"))
          (ConfigFile.parsed [("enabled", PyVal.vbool true)])) = false :=
  ⟨(load_config_defaults (fun _ => (false, "bad value")) [] "x").1.1,
   ((load_config_defaults (fun _ => (false, "bad value"))
      [("enabled", PyVal.vbool true)] "x").2.2 rfl).1,
   ((load_config_defaults (fun _ => (false, "bad value"))
      [("enabled", PyVal.vbool true)] "x").2.2 rfl).2⟩

/-!
## Retry (src/core/retry.py) and send_trigger (src/core/server_client.py)

The HTTP transport is abstracted as a schedule `call : Nat → HttpOutcome`
giving the outcome of the n-th POST (n counted from 1): either a response
with a status code, or a raised exception.  `retry.py`'s backoff delays
and jitter are real-time/randomness and are not observable in any claim;
only the attempt counting and the transient/permanent classification are
modelled.  `retry_async` with `max_attempts = 0` would perform no call
and fall off the loop in Python; all uses here have `max_attempts = 3`.
-/

structure HttpResponse where
  status : Nat
deriving DecidableEq

inductive HttpOutcome where
  | status (s : Nat)
  | raiseExc (e : PyExc)

/-- `retry._is_transient_error`: network/timeout errors and aiohttp
errors are transient, except a `ClientResponseError` with status < 500;
programming errors and unknown exceptions are not. -/
def is_transient_error : PyExc → Bool
  | PyExc.connectionError _ => true
  | PyExc.timeoutError => true
  | PyExc.clientResponseError s => decide (500 ≤ s)
  | PyExc.clientError _ => true
  | PyExc.valueError _ => false
  | PyExc.typeError _ => false
  | PyExc.keyError _ => false
  | PyExc.attributeError _ => false
  | PyExc.otherExc _ => false

/-- The body of `_send_trigger_with_retry` for one attempt: perform the
POST; `response.raise_for_status()` is called exactly when the status is
>= 500, raising a `ClientResponseError` carrying that status; otherwise
the response is returned. -/
def send_trigger_attempt (out : HttpOutcome) : Except PyExc HttpResponse :=
  match out with
  | HttpOutcome.raiseExc e => Except.error e
  | HttpOutcome.status s =>
    if 500 ≤ s then Except.error (PyExc.clientResponseError s)
    else Except.ok ⟨s⟩

/-- The attempt loop of `retry_async`: `attempt` is the 1-based attempt
number about to run, `remaining` the number of further attempts allowed
after it (`max_attempts - attempt`).  A success returns immediately; a
non-transient failure or the last attempt re-raises; otherwise sleep and
retry.  Returns (number of calls performed, final outcome). -/
def retry_attempts (call : Nat → Except PyExc HttpResponse) :
    Nat → Nat → Nat × Except PyExc HttpResponse
  | attempt, remaining =>
    match call attempt with
    | Except.ok r => (attempt, Except.ok r)
    | Except.error e =>
      match remaining with
      | 0 => (attempt, Except.error e)
      | rem + 1 =>
        if is_transient_error e then retry_attempts call (attempt + 1) rem
        else (attempt, Except.error e)

/-- `retry_async(RetryConfig(max_attempts))` applied to a fallible call
(`max_attempts` >= 1). -/
def retry_async_run (max_attempts : Nat)
    (call : Nat → Except PyExc HttpResponse) :
    Nat × Except PyExc HttpResponse :=
  retry_attempts call 1 (max_attempts - 1)

/-- `ServerClient.send_trigger`: empty server URL or device key short-
circuits to failure with no network call; otherwise the POST runs under
`retry_async(RetryConfig(max_attempts=3, ...))`; a final response with
status exactly 200 is success; any other status, or any exception from
the exhausted retry (all caught by the `except` clauses), is failure.
Returns (result, number of HTTP calls performed); the Python function is
total — it never raises. -/
def send_trigger (server_url device_key : String)
    (call : Nat → HttpOutcome) : Bool × Nat :=
  if server_url = "" ∨ device_key = "" then (false, 0)
  else
    match retry_async_run 3 (fun n => send_trigger_attempt (call n)) with
    | (calls, Except.ok r) => (r.status == 200, calls)
    | (calls, Except.error _) => (false, calls)

/-- C5 counterexample: with status 500 on each of the first three calls
and 200 afterwards, the three-attempt retry budget is exhausted before
any 200 is seen: `send_trigger` performs exactly 3 calls and returns
false, not true as the claim states. -/
theorem send_trigger_500x3_counterexample :
    send_trigger "https://api.agimate.io" "device-key"
        (fun n => if n ≤ 3 then HttpOutcome.status 500
                  else HttpOutcome.status 200)
      = (false, 3) := by
  decide

/-- C5 amended: under `RetryConfig(max_attempts=3)`, when the HTTP POST
receives status 500 on each of the first three calls (and 200 on any
subsequent call, which is never reached), `send_trigger` returns false
and exactly 3 HTTP calls are issued. -/
theorem send_trigger_500x3_amended (url key : String)
    (call : Nat → HttpOutcome) (hu : url ≠ "") (hk : key ≠ "")
    (h500 : ∀ n, 1 ≤ n → n ≤ 3 → call n = HttpOutcome.status 500)
    (_h200 : ∀ n, 3 < n → call n = HttpOutcome.status 200) :
    send_trigger url key call = (false, 3) := by
  have h1 := h500 1 (by decide) (by decide)
  have h2 := h500 2 (by decide) (by decide)
  have h3 := h500 3 (by decide) (by decide)
  simp [send_trigger, hu, hk, retry_async_run, retry_attempts, h1, h2, h3,
    send_trigger_attempt, is_transient_error]

theorem send_trigger_500x3_amended_witness :
    send_trigger "http://test-server" "test-key"
        (fun n => if n ≤ 3 then HttpOutcome.status 500
                  else HttpOutcome.status 200)
      = (false, 3) :=
  send_trigger_500x3_amended "http://test-server" "test-key" _
    (by decide) (by decide)
    (fun n h1 h2 => by rw [if_pos h2])
    (fun n h3 => by rw [if_neg (by omega)])

/-- C6 counterexample: a final response status of 201 is in the 2xx
range, yet `send_trigger` returns false — success is `status == 200`
exactly, not the 2xx range as the claim states. -/
theorem send_trigger_2xx_counterexample :
    (send_trigger "https://api.agimate.io" "device-key"
        (fun _ => HttpOutcome.status 201)).1 = false
      ∧ (200 ≤ 201 ∧ 201 < 300) := by
  decide

/-- C6 amended: with a non-empty base URL and device key, `send_trigger`
returns true if and only if the retry's final outcome is a response with
status exactly 200; every other status and every timeout/network
exception yields false, and `send_trigger` never raises (it is a total
function into Bool). -/
theorem send_trigger_success_iff (url key : String)
    (call : Nat → HttpOutcome) (hu : url ≠ "") (hk : key ≠ "") :
    (send_trigger url key call).1 = true ↔
      (∃ r, (retry_async_run 3 (fun n => send_trigger_attempt (call n))).2
          = Except.ok r ∧ r.status = 200) := by
  unfold send_trigger
  rw [if_neg (by simp [hu, hk])]
  cases hres : retry_async_run 3 (fun n => send_trigger_attempt (call n)) with
  | mk calls out =>
    cases out with
    | ok r =>
      simp only []
      constructor
      · intro hb
        exact ⟨r, rfl, by simpa using hb⟩
      · intro ⟨r2, hr2, hs2⟩
        have : r2 = r := by
          have := hr2
          simp at this
          exact this.symm
        subst this
        simpa using hs2
    | error e =>
      simp only []
      constructor
      · intro hb
        exact absurd hb (by simp)
      · intro ⟨r2, hr2, hs2⟩
        exact absurd hr2 (by simp)

theorem send_trigger_success_iff_witness :
    (send_trigger "http://test-server" "test-key"
        (fun _ => HttpOutcome.status 200)).1 = true :=
  (send_trigger_success_iff "http://test-server" "test-key"
      (fun _ => HttpOutcome.status 200) (by decide) (by decide)).2
    ⟨⟨200⟩, rfl, rfl⟩

/-!
## WebSocket URL derivation (src/core/server_client.py, `_get_ws_url`)
and endpoint constants (src/core/api_endpoints.py)

`urllib.parse.urlparse` is modelled for the URL shapes the client
stores (`scheme://netloc[/path]`, the base URL having been
`rstrip("/")`-ed at construction): the scheme is everything before the
first "://", the netloc everything after it up to the first "/".  URLs
are lists of characters so that the string surgery is fully
executable.
-/

/-- Split a URL at the first occurrence of "://" (the scheme/netloc
split of `urlparse` for absolute URLs). -/
def splitScheme : List Char → Option (List Char × List Char)
  | [] => none
  | ':' :: '/' :: '/' :: rest => some ([], rest)
  | c :: cs =>
    match splitScheme cs with
    | some (l, r) => some (c :: l, r)
    | none => none

/-- `urlparse(url).scheme` (empty when the URL has no "://"). -/
def urlparse_scheme (url : List Char) : List Char :=
  match splitScheme url with
  | some (s, _) => s
  | none => []

/-- `urlparse(url).netloc` (empty when the URL has no "://"). -/
def urlparse_netloc (url : List Char) : List Char :=
  match splitScheme url with
  | some (_, r) => r.takeWhile (fun c => c != '/')
  | none => []

/-- `host.split(".", 1)`: the part before the first dot and the rest,
or `none` if the host contains no dot. -/
def splitFirstDot : List Char → Option (List Char × List Char)
  | [] => none
  | c :: cs =>
    if c = '.' then some ([], cs)
    else match splitFirstDot cs with
      | some (l, r) => some (c :: l, r)
      | none => none

/-- `ENDPOINT_WEBSOCKET` (api_endpoints.py). -/
def ENDPOINT_WEBSOCKET : List Char := "/connection/websocket".data

/-- `ServerClient._get_ws_url`: the stored `wsUrl` from the token
response wins; otherwise, for a multi-label host the first label is
replaced by "centrifugo" and the scheme is forced to wss; for a
single-label host the host is kept and the scheme follows the base
URL's scheme (https → wss, otherwise ws). -/
def get_ws_url (stored_ws_url : Option (List Char))
    (server_url : List Char) : List Char :=
  match stored_ws_url with
  | some u => u
  | none =>
    let scheme := urlparse_scheme server_url
    let host := urlparse_netloc server_url
    match splitFirstDot host with
    | some (_, parent) =>
      "wss://centrifugo.".data ++ parent ++ ENDPOINT_WEBSOCKET
    | none =>
      (if scheme = "https".data then "wss".data else "ws".data)
        ++ "://".data ++ host ++ ENDPOINT_WEBSOCKET

theorem takeWhile_no_slash (host : List Char) (h : ∀ c ∈ host, c ≠ '/') :
    host.takeWhile (fun c => c != '/') = host := by
  induction host with
  | nil => rfl
  | cons c cs ih =>
    have hc : (c != '/') = true := by
      simpa using h c (List.mem_cons_self c cs)
    simp only [List.takeWhile_cons, hc, if_true]
    rw [ih (fun x hx => h x (List.mem_cons_of_mem c hx))]

theorem splitFirstDot_append (first parent : List Char)
    (h : ∀ c ∈ first, c ≠ '.') :
    splitFirstDot (first ++ '.' :: parent) = some (first, parent) := by
  induction first with
  | nil => simp [splitFirstDot]
  | cons c cs ih =>
    have hc : c ≠ '.' := h c (List.mem_cons_self c cs)
    simp only [List.cons_append, splitFirstDot, hc, if_false, List.append_eq,
      ih (fun x hx => h x (List.mem_cons_of_mem c hx))]

theorem splitFirstDot_none (host : List Char) (h : ∀ c ∈ host, c ≠ '.') :
    splitFirstDot host = none := by
  induction host with
  | nil => rfl
  | cons c cs ih =>
    have hc : c ≠ '.' := h c (List.mem_cons_self c cs)
    simp only [splitFirstDot, hc, if_false,
      ih (fun x hx => h x (List.mem_cons_of_mem c hx))]

/-- C7 counterexample: with no explicit streaming URL and base
`https://api.agimate.io`, the derived endpoint replaces the first label
with "centrifugo" (matching the repository's own tests), not with
"streaming" as the claim states. -/
theorem get_ws_url_streaming_counterexample :
    get_ws_url none "https://api.agimate.io".data
        = "wss://centrifugo.agimate.io/connection/websocket".data
      ∧ get_ws_url none "https://api.agimate.io".data
        ≠ "wss://streaming.agimate.io/connection/websocket".data := by
  decide

/-- C7 amended: when the token response supplies no explicit streaming
URL, a multi-label host has its first DNS label replaced with the fixed
label "centrifugo" and the scheme forced secure, yielding
wss://centrifugo.(parent-domain)/connection/websocket (for an https and
an http base alike); a single-label host is kept unchanged with the
original scheme mapped https → wss, otherwise ws; and a supplied
streaming URL is returned as-is. -/
theorem get_ws_url_derivation (first parent host : List Char)
    (hfd : ∀ c ∈ first, c ≠ '.') (hfs : ∀ c ∈ first, c ≠ '/')
    (hps : ∀ c ∈ parent, c ≠ '/')
    (hhd : ∀ c ∈ host, c ≠ '.') (hhs : ∀ c ∈ host, c ≠ '/') :
    (get_ws_url none ("https://".data ++ (first ++ '.' :: parent))
        = "wss://centrifugo.".data ++ parent ++ "/connection/websocket".data)
  ∧ (get_ws_url none ("http://".data ++ (first ++ '.' :: parent))
        = "wss://centrifugo.".data ++ parent ++ "/connection/websocket".data)
  ∧ (get_ws_url none ("https://".data ++ host)
        = "wss://".data ++ host ++ "/connection/websocket".data)
  ∧ (get_ws_url none ("http://".data ++ host)
        = "ws://".data ++ host ++ "/connection/websocket".data)
  ∧ (∀ u s, get_ws_url (some u) s = u) := by
  have hnet1 : ∀ c ∈ first ++ '.' :: parent, c ≠ '/' := by
    intro c hc
    rcases List.mem_append.mp hc with hcf | hcp
    · exact hfs c hcf
    · rcases List.mem_cons.mp hcp with hdot | hp
      · rw [hdot]; decide
      · exact hps c hp
  have hsplit1 : splitScheme ("https://".data ++ (first ++ '.' :: parent))
      = some ("https".data, first ++ '.' :: parent) := rfl
  have hsplit2 : splitScheme ("http://".data ++ (first ++ '.' :: parent))
      = some ("http".data, first ++ '.' :: parent) := rfl
  have hsplit3 : splitScheme ("https://".data ++ host)
      = some ("https".data, host) := rfl
  have hsplit4 : splitScheme ("http://".data ++ host)
      = some ("http".data, host) := rfl
  refine ⟨?_, ?_, ?_, ?_, fun u s => rfl⟩
  · unfold get_ws_url urlparse_scheme urlparse_netloc
    rw [hsplit1]
    simp only []
    rw [takeWhile_no_slash _ hnet1, splitFirstDot_append first parent hfd]
    simp [ENDPOINT_WEBSOCKET]
  · unfold get_ws_url urlparse_scheme urlparse_netloc
    rw [hsplit2]
    simp only []
    rw [takeWhile_no_slash _ hnet1, splitFirstDot_append first parent hfd]
    simp [ENDPOINT_WEBSOCKET]
  · unfold get_ws_url urlparse_scheme urlparse_netloc
    rw [hsplit3]
    simp only []
    rw [takeWhile_no_slash _ hhs, splitFirstDot_none host hhd]
    simp only [if_pos rfl]
    simp [ENDPOINT_WEBSOCKET]
  · unfold get_ws_url urlparse_scheme urlparse_netloc
    rw [hsplit4]
    simp only []
    rw [takeWhile_no_slash _ hhs, splitFirstDot_none host hhd]
    rw [if_neg (by decide)]
    simp [ENDPOINT_WEBSOCKET]

theorem get_ws_url_derivation_witness :
    (get_ws_url none ("https://".data ++ ("api".data ++ '.' :: "agimate.io".data))
        = "wss://centrifugo.".data ++ "agimate.io".data
            ++ "/connection/websocket".data)
      ∧ (get_ws_url none ("http://".data ++ "localhost:8080".data)
        = "ws://".data ++ "localhost:8080".data
            ++ "/connection/websocket".data) :=
  ⟨(get_ws_url_derivation "api".data "agimate.io".data "localhost:8080".data
      (by decide) (by decide) (by decide) (by decide) (by decide)).1,
   (get_ws_url_derivation "api".data "agimate.io".data "localhost:8080".data
      (by decide) (by decide) (by decide) (by decide) (by decide)).2.2.2.1⟩

/-- `ENDPOINT_DEVICE_TRIGGER` exactly as defined in api_endpoints.py. -/
def ENDPOINT_DEVICE_TRIGGER : String := "/app/trigger/new"

/-- The URL built by `send_trigger` (line
`url = f"..."` joining the stored base URL and the endpoint constant). -/
def send_trigger_url (server_url : String) : String :=
  server_url ++ ENDPOINT_DEVICE_TRIGGER

/-- C8 (code-bug evidence): every POST of `send_trigger` goes to
`{base}/app/trigger/new`, while the spec and the repository's own tests
(test_server_client.py mocks `http://test-server/device/trigger/new`)
require `{base}/device/trigger/new`. -/
theorem trigger_endpoint_mismatch :
    ENDPOINT_DEVICE_TRIGGER = "/app/trigger/new"
      ∧ send_trigger_url "http://test-server"
        = "http://test-server/app/trigger/new"
      ∧ send_trigger_url "http://test-server"
        ≠ "http://test-server/device/trigger/new" := by
  refine ⟨rfl, rfl, ?_⟩
  decide

/-- A concrete bus for the C9 witness: topic "t" has a raising handler
followed by a normal one. -/
def wit_bus : EventBus Nat :=
  ⟨[("t", [⟨1, fun _ => Except.error "boom"⟩, ⟨2, fun _ => Except.ok ()⟩])]⟩

theorem publish_invokes_all_in_order_witness :
    (EventBus.publish wit_bus "t" 0).map Prod.fst
        = (EventBus.subscribersOf wit_bus "t").map SyncHandler.hid
      ∧ EventBus.publish wit_bus "zero.subs" 0 = [] :=
  ⟨(publish_invokes_all_in_order wit_bus "t" 0).1,
   (publish_invokes_all_in_order wit_bus "zero.subs" 0).2.2 rfl⟩
